import Mathlib

/-!
Verification of the paper-retrieval / section-analysis pipeline.

Shallow embedding of the Python sources:
  - `paper_retrieval/models.py`   : paper metadata records
  - `paper_retrieval/selector.py` : ranking and selection
  - `paper_retrieval/searcher.py` : paginated search and response handling
  - `paper_retrieval/downloader.py` + `utils/helpers.py` : PDF download
  - `section_extractor.py`        : section detection
  - `section_analyzer.py`         : cross-paper comparison
  - `advanced_text_processor.py`  : quality metrics and citation extraction

Python floats are modelled as rationals (`ℚ`); the constants involved are
decimal literals and every claim proved here is insensitive to IEEE-754
rounding at the inputs considered.  Python `str` is modelled as `String`
with character-level helpers written out structurally (so that closed
instances evaluate by `decide`/`rfl`); whitespace and word characters are
the ASCII ones, which covers all inputs appearing in the claims.
-/

namespace RA

/-! ### Python string primitives (ASCII), written structurally so that closed
instances reduce inside the kernel. -/

/-- ASCII whitespace as recognised by Python's `str.strip`/`str.split`. -/
def pyIsSpace (c : Char) : Bool :=
  c = ' ' || c = '\t' || c = '\n' || c = '\x0d' || c = '\x0b' || c = '\x0c'

/-- `str.strip()` on a character list. -/
def pyStripChars (cs : List Char) : List Char :=
  ((cs.dropWhile pyIsSpace).reverse.dropWhile pyIsSpace).reverse

/-- `str.strip()`. -/
def pyStrip (s : String) : String :=
  ⟨pyStripChars s.data⟩

/-! ### `paper_retrieval/models.py` -/

/-- `Author` (pydantic model). -/
structure Author where
  authorId : Option String
  name : String
deriving DecidableEq

/-- `OpenAccessPdf` (pydantic model); `url` is a required field. -/
structure OpenAccessPdf where
  url : String
  status : Option String
deriving DecidableEq

/-- `PaperMetadata` (pydantic model). -/
structure PaperMetadata where
  paperId : String
  title : String
  authors : Option (List Author)
  year : Option Int
  abstract : Option String
  citationCount : Option Int
  openAccessPdf : Option OpenAccessPdf
deriving DecidableEq

/-- `PaperMetadata.has_open_pdf`: `openAccessPdf is not None and openAccessPdf.url
is not None`; `url` is a required `str` field, so the second conjunct is the
presence of the record. -/
def PaperMetadata.has_open_pdf (p : PaperMetadata) : Bool :=
  p.openAccessPdf.isSome

/-- `PaperMetadata.get_pdf_url`. -/
def PaperMetadata.get_pdf_url (p : PaperMetadata) : Option String :=
  if p.has_open_pdf then (p.openAccessPdf.map OpenAccessPdf.url) else none

/-! ### `paper_retrieval/selector.py` -/

namespace PaperSelector

/-- The tuple `(-has_pdf, -citation_count, -year)` computed by `sort_key` inside
`PaperSelector.rank_papers`.  `paper.citationCount or 0` and `paper.year or 0`
agree with `Option.getD 0` (`None ↦ 0`, and `0 or 0 = 0`). -/
def sortKey (p : PaperMetadata) : Int × Int × Int :=
  (-(if p.has_open_pdf then 1 else 0), -(p.citationCount.getD 0), -(p.year.getD 0))

/-- Lexicographic `≤` on integer triples: Python's ascending tuple comparison,
as used by `sorted(papers, key=sort_key)`. -/
def le3 (x y : Int × Int × Int) : Prop :=
  x.1 < y.1 ∨ (x.1 = y.1 ∧ (x.2.1 < y.2.1 ∨ (x.2.1 = y.2.1 ∧ x.2.2 ≤ y.2.2)))

instance : DecidableRel le3 := fun x y => by unfold le3; infer_instance

/-- Comparison of two papers by their composite key. -/
def keyLe (a b : PaperMetadata) : Prop :=
  le3 (sortKey a) (sortKey b)

instance : DecidableRel keyLe := fun a b => by unfold keyLe; infer_instance

theorem le3_refl (x : Int × Int × Int) : le3 x x := by
  unfold le3; omega

theorem le3_trans {x y z : Int × Int × Int} (h₁ : le3 x y) (h₂ : le3 y z) : le3 x z := by
  unfold le3 at *; omega

theorem le3_total (x y : Int × Int × Int) : le3 x y ∨ le3 y x := by
  unfold le3; omega

instance : IsTotal PaperMetadata keyLe := ⟨fun a b => le3_total _ _⟩

instance : IsTrans PaperMetadata keyLe := ⟨fun _ _ _ => le3_trans⟩

/-- `PaperSelector.rank_papers`: `sorted(papers, key=sort_key)` with the empty
guard.  Python's `sorted` is a stable sort by the key; a stable sort by a total
preorder has a unique result, and `List.insertionSort` (which inserts each
earlier element in front of the later key-equal ones) realises it. -/
def rank_papers (papers : List PaperMetadata) : List PaperMetadata :=
  if papers = [] then [] else List.insertionSort keyLe papers

/-- The candidate pool size computed inside the randomized branch of
`PaperSelector.select_papers`:
`max(max_papers, int(len(ranked) * (0.1 + 0.9 * diversity_factor)))`.
Python `int()` truncates toward zero; for `d ≥ 0` the argument is nonnegative,
where truncation coincides with `Int.floor`. -/
def poolSize (n maxPapers : ℕ) (d : ℚ) : ℕ :=
  max maxPapers (Int.toNat ⌊(n : ℚ) * (1/10 + 9/10 * d)⌋)

/-- `PaperSelector.select_papers`.  `random.sample(pool, k)` is modelled by an
oracle `sample` supplied by the caller; `prioritizePdfs` is accepted and ignored
exactly as in the source. -/
def select_papers (sample : List PaperMetadata → ℕ → List PaperMetadata)
    (papers : List PaperMetadata) (maxPapers : ℕ)
    (prioritizePdfs randomize : Bool) (diversityFactor : ℚ) : List PaperMetadata :=
  if papers = [] then []
  else
    let ranked := rank_papers papers
    if randomize ∧ ranked.length > maxPapers then
      let pool := ranked.take (poolSize ranked.length maxPapers diversityFactor)
      sample pool (min maxPapers pool.length)
    else
      ranked.take maxPapers

/-- Key-preserving filter of an ordered insertion: elements passed over by
`orderedInsert` are strictly below `a` in the composite order, hence have a
different key, so inserting `a` prepends it to its own key class. -/
theorem filter_key_orderedInsert (k : Int × Int × Int) (a : PaperMetadata)
    (s : List PaperMetadata) :
    (List.orderedInsert keyLe a s).filter (fun p => decide (sortKey p = k))
      = if sortKey a = k
          then a :: s.filter (fun p => decide (sortKey p = k))
          else s.filter (fun p => decide (sortKey p = k)) := by
  induction s with
  | nil =>
      by_cases hk : sortKey a = k <;> simp [hk]
  | cons b t ih =>
      by_cases hab : keyLe a b
      · by_cases hk : sortKey a = k <;>
          simp [List.orderedInsert, hab, List.filter_cons, hk]
      · have hba : ¬ sortKey b = sortKey a := by
          intro he
          exact hab (show le3 (sortKey a) (sortKey b) by rw [he]; exact le3_refl _)
        by_cases hk : sortKey a = k
        · have hbk : ¬ sortKey b = k := fun h => hba (h.trans hk.symm)
          simp [List.orderedInsert, hab, List.filter_cons, hk, hbk, ih]
        · simp [List.orderedInsert, hab, List.filter_cons, hk, ih]

/-- Stability of the sort realised as preservation of every key class. -/
theorem filter_key_insertionSort (k : Int × Int × Int) (l : List PaperMetadata) :
    (List.insertionSort keyLe l).filter (fun p => decide (sortKey p = k))
      = l.filter (fun p => decide (sortKey p = k)) := by
  induction l with
  | nil => rfl
  | cons a t ih =>
      by_cases hk : sortKey a = k <;>
        simp [List.insertionSort, filter_key_orderedInsert, hk, ih, List.filter_cons]

/-- Scenario-B paper without a PDF: 100 citations, year 2020. -/
def paperNoPdf : PaperMetadata :=
  ⟨"p1", "High citations no pdf", none, some 2020, none, some 100, none⟩

/-- Scenario-B paper with an open-access PDF: 1 citation, year 2019. -/
def paperWithPdf : PaperMetadata :=
  ⟨"p2", "Pdf low citations", none, some 2019, none, some 1,
    some ⟨"http://example.org/a.pdf", none⟩⟩

/-- C3: `rank_papers` returns a permutation of its input that is sorted by the
composite key `(hasOpenAccessPdf desc, citationCount desc, year desc)`; it is
stable (every key class is kept in input order, stated as filter preservation);
and on Scenario B the PDF-bearing paper ranks first despite fewer citations. -/
theorem rank_papers_stable_sorted :
    (∀ papers : List PaperMetadata,
        (rank_papers papers).Perm papers
        ∧ List.Sorted keyLe (rank_papers papers)
        ∧ ∀ k, (rank_papers papers).filter (fun p => decide (sortKey p = k))
            = papers.filter (fun p => decide (sortKey p = k)))
    ∧ rank_papers [paperNoPdf, paperWithPdf] = [paperWithPdf, paperNoPdf] := by
  constructor
  · intro papers
    refine ⟨?_, ?_, ?_⟩
    · unfold rank_papers
      split
      · simp [*]
      · exact List.perm_insertionSort keyLe papers
    · unfold rank_papers
      split
      · simp
      · exact List.sorted_insertionSort keyLe papers
    · intro k
      unfold rank_papers
      split
      · simp [*]
      · exact filter_key_insertionSort k papers
  · decide

/-- Modelled from the claim's words for comparison: a pool size of
`max(maxPapers, round(len(ranked) * (0.1 + 0.9 * diversityFactor)))`,
with rounding-to-nearest instead of the source's `int()` truncation. -/
def claimedPoolSizeRound (n maxPapers : ℕ) (d : ℚ) : ℕ :=
  max maxPapers (round ((n : ℚ) * (1/10 + 9/10 * d))).toNat

/-- C5 counterexample: with 19 ranked papers, `maxPapers = 1` and
`diversityFactor = 0`, the code computes `int(19 * 0.1) = 1` (in IEEE floats
`19 * 0.1 = 1.9000000000000001`, truncated to 1), while the claim's
`round(1.9...) = 2`; the two pool sizes differ. -/
theorem poolSize_int_differs_from_claimed_round :
    poolSize 19 1 0 = 1
    ∧ claimedPoolSizeRound 19 1 0 = 2
    ∧ poolSize 19 1 0 ≠ claimedPoolSizeRound 19 1 0 := by
  refine ⟨by norm_num [poolSize], ?_, ?_⟩ <;>
    · norm_num [poolSize, claimedPoolSizeRound, round_eq]
      decide

/-- C5 amended: in randomized mode the candidate pool size is
`max(maxPapers, ⌊len(ranked) * (0.1 + 0.9 * diversityFactor)⌋)` (truncation,
not rounding).  At `d = 0` the pool is the top `⌊10%⌋` of the ranked list (or
`maxPapers`, whichever is larger); at `d = 1` it is the entire ranked list; the
size is monotone in `d`; and whenever the sampling branch is taken
(`randomize` and more ranked papers than `maxPapers`), `select_papers` draws
from exactly the first `poolSize` ranked papers. -/
theorem poolSize_floor_endpoints (n maxPapers : ℕ) (d d' : ℚ)
    (sample : List PaperMetadata → ℕ → List PaperMetadata)
    (papers : List PaperMetadata) (pr : Bool)
    (h0 : 0 ≤ d) (hdd : d ≤ d') (h1 : d' ≤ 1)
    (hne : papers ≠ []) (hgt : maxPapers < (rank_papers papers).length) :
    poolSize n maxPapers 0 = max maxPapers (n / 10)
    ∧ poolSize n maxPapers 1 = max maxPapers n
    ∧ poolSize n maxPapers d ≤ poolSize n maxPapers d'
    ∧ select_papers sample papers maxPapers pr true d
        = sample ((rank_papers papers).take (poolSize (rank_papers papers).length maxPapers d))
            (min maxPapers
              ((rank_papers papers).take (poolSize (rank_papers papers).length maxPapers d)).length) := by
  refine ⟨?_, ?_, ?_, ?_⟩
  · unfold poolSize
    have he : (n : ℚ) * (1/10 + 9/10 * 0) = (n : ℚ) / 10 := by ring
    rw [he]
    congr 1
    rw [Int.floor_toNat]
    exact_mod_cast Nat.floor_div_nat (α := ℚ) n 10
  · unfold poolSize
    have he : (n : ℚ) * (1/10 + 9/10 * 1) = (n : ℚ) := by ring
    rw [he, Int.floor_natCast, Int.toNat_natCast]
  · unfold poolSize
    refine max_le_max le_rfl (Int.toNat_le_toNat (Int.floor_le_floor ?_))
    have hn : (0 : ℚ) ≤ (n : ℚ) := by positivity
    nlinarith
  · unfold select_papers
    rw [if_neg hne, if_pos ⟨rfl, hgt⟩]

/-- Closed witness for the C5 amended theorem, at `n = 20`, `maxPapers = 1`,
`d = 1/4 ≤ d' = 1/2`, with a concrete sampler and a two-paper list. -/
theorem poolSize_floor_endpoints_witness :
    poolSize 20 1 0 = max 1 2
    ∧ poolSize 20 1 1 = max 1 20
    ∧ poolSize 20 1 (1/4) ≤ poolSize 20 1 (1/2)
    ∧ select_papers (fun pool _ => pool.reverse) [paperNoPdf, paperWithPdf] 1 false true (1/4)
        = (fun (pool : List PaperMetadata) (_ : ℕ) => pool.reverse)
            ((rank_papers [paperNoPdf, paperWithPdf]).take
              (poolSize (rank_papers [paperNoPdf, paperWithPdf]).length 1 (1/4)))
            (min 1
              ((rank_papers [paperNoPdf, paperWithPdf]).take
                (poolSize (rank_papers [paperNoPdf, paperWithPdf]).length 1 (1/4))).length) :=
  poolSize_floor_endpoints 20 1 (1/4) (1/2) (fun pool _ => pool.reverse)
    [paperNoPdf, paperWithPdf] false (by norm_num) (by norm_num) (by norm_num)
    (by decide) (by decide)

/-- C10: with `randomize = true` but no more papers than `maxPapers`, the
guard `len(ranked) > max_papers` fails, the `random.sample` branch is never
entered, and the result is the full ranked list — identical for any two
sampling oracles (any two random-generator states). -/
theorem select_papers_deterministic_when_small
    (sample₁ sample₂ : List PaperMetadata → ℕ → List PaperMetadata)
    (papers : List PaperMetadata) (maxPapers : ℕ) (pr : Bool) (d : ℚ)
    (hle : papers.length ≤ maxPapers) :
    select_papers sample₁ papers maxPapers pr true d = rank_papers papers
    ∧ select_papers sample₁ papers maxPapers pr true d
        = select_papers sample₂ papers maxPapers pr true d := by
  have hlen : (rank_papers papers).length = papers.length := by
    unfold rank_papers
    split
    · simp [*]
    · exact (List.perm_insertionSort keyLe papers).length_eq
  have hcond : ¬ (true = true ∧ (rank_papers papers).length > maxPapers) := by
    rintro ⟨-, hgt⟩
    omega
  constructor
  · unfold select_papers
    split
    · simp [rank_papers, *]
    · rw [if_neg hcond]
      exact List.take_of_length_le (by omega)
  · unfold select_papers
    split
    · rfl
    · rw [if_neg hcond, if_neg hcond]

/-- Closed witness for C10 at a concrete two-paper list with `maxPapers = 3`
and two different sampling oracles. -/
theorem select_papers_deterministic_when_small_witness :
    select_papers (fun _ _ => []) [paperNoPdf, paperWithPdf] 3 true true (1/2)
        = rank_papers [paperNoPdf, paperWithPdf]
    ∧ select_papers (fun _ _ => []) [paperNoPdf, paperWithPdf] 3 true true (1/2)
        = select_papers (fun pool _ => pool.reverse) [paperNoPdf, paperWithPdf] 3 true true (1/2) :=
  select_papers_deterministic_when_small (fun _ _ => []) (fun pool _ => pool.reverse)
    [paperNoPdf, paperWithPdf] 3 true (1/2) (by decide)

end PaperSelector

/-! ### `paper_retrieval/searcher.py` -/

namespace SemanticScholarSearcher

/-- `MAX_RESULTS_PER_REQUEST` from `config.py` (Semantic Scholar page limit). -/
def MAX_RESULTS_PER_REQUEST : ℕ := 100

/-- The response record built by `search_papers`
(`SemanticScholarSearchResponse(total=…, offset=…, data=…)`). -/
structure SemanticScholarSearchResponse where
  total : Int
  offset : Int
  data : List PaperMetadata
deriving DecidableEq

/-- The shape of a successfully JSON-parsed search body: the `total` and
`offset` fields when present, and the raw `data` records (of an abstract
record type `R`, validated one by one). -/
structure ParsedBody (R : Type) where
  total : Option Int
  offset : Option Int
  records : List R

/-- The body-handling tail of `SemanticScholarSearcher.search_papers`
(lines 119–149), after a successful HTTP request: an empty or
whitespace-only body, or a body the JSON parser rejects, yields
`SemanticScholarSearchResponse(total=0, offset=offset, data=[])`; otherwise
each record is validated (`PaperMetadata(**paper_data)`), records that fail
validation are skipped, and missing `total`/`offset` fields default to the
paper count and the request offset.  JSON parsing and pydantic validation are
modelled as oracles `parse` and `validate`. -/
def search_papers_body {R : Type} (parse : String → Option (ParsedBody R))
    (validate : R → Option PaperMetadata) (body : String) (offset : Int) :
    SemanticScholarSearchResponse :=
  if body = "" ∨ pyStrip body = "" then
    ⟨0, offset, []⟩
  else
    match parse body with
    | none => ⟨0, offset, []⟩
    | some d =>
        let papers := d.records.filterMap validate
        ⟨d.total.getD papers.length, d.offset.getD offset, papers⟩

/-- C7: a whitespace-only (in particular empty) body, or a body the JSON
parser rejects, makes `search_papers` return an empty result set —
`total = 0`, no papers, the request's offset — rather than propagating an
exception (the function is total). -/
theorem search_papers_body_malformed_returns_empty {R : Type}
    (parse : String → Option (ParsedBody R)) (validate : R → Option PaperMetadata)
    (body : String) (offset : Int)
    (h : pyStrip body = "" ∨ parse body = none) :
    search_papers_body parse validate body offset = ⟨0, offset, []⟩ := by
  unfold search_papers_body
  by_cases hb : body = "" ∨ pyStrip body = ""
  · rw [if_pos hb]
  · rw [if_neg hb]
    have hp : parse body = none := by
      rcases h with h | h
      · exact absurd (Or.inr h) hb
      · exact h
    rw [hp]

/-- Closed witness for C7: an unparseable non-empty body (`parse` rejects it)
at offset 5. -/
theorem search_papers_body_malformed_returns_empty_witness :
    search_papers_body (fun _ => (none : Option (ParsedBody Unit))) (fun _ => none)
      "this is not json" 5 = ⟨0, 5, []⟩ :=
  search_papers_body_malformed_returns_empty _ _ "this is not json" 5 (Or.inr rfl)

/-- The pagination loop of `search_papers_paginated` (lines 173–207).  The
network client is the oracle `fetch limit offset`, returning the page or a
request failure; the element type is abstract since the loop never inspects
the records.  The loop is written with explicit fuel because Lean needs a
structural decreasing argument; `search_papers_paginated_loop_fuel_congr`
below shows any fuel above `remaining.toNat` computes the same list, so the
fuel is a proof artifact, not a behavior change. -/
def search_papers_paginated_loop {P : Type} (fetch : ℕ → ℕ → Except Unit (List P)) :
    ℕ → ℤ → ℕ → List P → List P
  | 0, _, _, acc => acc
  | fuel + 1, remaining, offset, acc =>
    if remaining ≤ 0 then acc
    else
      let requestLimit : ℤ := min remaining (MAX_RESULTS_PER_REQUEST : ℤ)
      match fetch requestLimit.toNat offset with
      | .error _ => acc
      | .ok papers =>
          if papers.isEmpty then acc
          else
            let acc' := acc ++ papers
            if (papers.length : ℤ) < requestLimit then acc'
            else
              search_papers_paginated_loop fetch fuel (remaining - papers.length)
                (offset + papers.length) acc'

/-- `SemanticScholarSearcher.search_papers_paginated`: run the loop from
offset 0 with an empty accumulator, and apply the final
`all_papers[:total_limit]` truncation. -/
def search_papers_paginated {P : Type} (fetch : ℕ → ℕ → Except Unit (List P))
    (totalLimit : Int) : List P :=
  (search_papers_paginated_loop fetch (totalLimit.toNat + 1) totalLimit 0 []).take
    totalLimit.toNat

/-- Any fuel strictly above `remaining.toNat` yields the same result: each
iteration consumes at least one unit of `remaining` (a kept page is nonempty),
so `remaining.toNat + 1` fuel always suffices. -/
theorem search_papers_paginated_loop_fuel_congr {P : Type}
    (fetch : ℕ → ℕ → Except Unit (List P)) :
    ∀ (f₁ f₂ : ℕ) (r : ℤ) (o : ℕ) (acc : List P),
      r.toNat < f₁ → r.toNat < f₂ →
      search_papers_paginated_loop fetch f₁ r o acc
        = search_papers_paginated_loop fetch f₂ r o acc := by
  intro f₁
  induction f₁ with
  | zero => intro f₂ r o acc h₁ _; omega
  | succ f ih =>
      intro f₂ r o acc h₁ h₂
      match f₂, h₂ with
      | g + 1, h₂ =>
        by_cases hr : r ≤ 0
        · simp [search_papers_paginated_loop, hr]
        · simp only [search_papers_paginated_loop, if_neg hr]
          cases hfetch : fetch (min r (MAX_RESULTS_PER_REQUEST : ℤ)).toNat o with
          | error e => rfl
          | ok papers =>
              by_cases hps : papers.isEmpty
              · simp [hps]
              · have hlen : 1 ≤ papers.length := by
                  cases papers with
                  | nil => simp at hps
                  | cons a t => simp
                by_cases hshort : (papers.length : ℤ) < min r (MAX_RESULTS_PER_REQUEST : ℤ)
                · simp [hps, hshort]
                · simp only [if_neg hps, if_neg hshort]
                  exact ih g (r - papers.length) (o + papers.length) (acc ++ papers)
                    (by omega) (by omega)

/-- Scenario-E mock client: pages of 100, 100 and 37 records at offsets 0,
100 and 200, never failing. -/
def mockFetch : ℕ → ℕ → Except Unit (List ℕ) :=
  fun _ offset =>
    .ok (if offset = 0 then List.range 100
         else if offset = 100 then (List.range 100).map (fun i => 100 + i)
         else if offset = 200 then (List.range 37).map (fun i => 200 + i)
         else [])

set_option maxRecDepth 4000 in
/-- C6: `search_papers_paginated` against a client returning pages of 100,
100 and 37 records with `totalLimit = 500` stops after the third page and
returns all 237 records without error; and in general each loop step either
stops with the accumulated records (when the limit is exhausted, a request
fails, or a page is shorter than requested — the error case raising nothing)
or recurses with the offset advanced by exactly the number of records
returned. -/
theorem search_papers_paginated_stops_and_advances :
    (search_papers_paginated mockFetch 500 = List.range 237
      ∧ (List.range 237).length = 237)
    ∧ (∀ (P : Type) (fetch : ℕ → ℕ → Except Unit (List P)) (fuel : ℕ) (r : ℤ)
          (o : ℕ) (acc : List P), r ≤ 0 →
        search_papers_paginated_loop fetch (fuel + 1) r o acc = acc)
    ∧ (∀ (P : Type) (fetch : ℕ → ℕ → Except Unit (List P)) (fuel : ℕ) (r : ℤ)
          (o : ℕ) (acc : List P), 0 < r →
        fetch (min r (MAX_RESULTS_PER_REQUEST : ℤ)).toNat o = .error () →
        search_papers_paginated_loop fetch (fuel + 1) r o acc = acc)
    ∧ (∀ (P : Type) (fetch : ℕ → ℕ → Except Unit (List P)) (fuel : ℕ) (r : ℤ)
          (o : ℕ) (acc ps : List P), 0 < r →
        fetch (min r (MAX_RESULTS_PER_REQUEST : ℤ)).toNat o = .ok ps →
        (ps.length : ℤ) < min r (MAX_RESULTS_PER_REQUEST : ℤ) →
        search_papers_paginated_loop fetch (fuel + 1) r o acc = acc ++ ps)
    ∧ (∀ (P : Type) (fetch : ℕ → ℕ → Except Unit (List P)) (fuel : ℕ) (r : ℤ)
          (o : ℕ) (acc ps : List P), 0 < r →
        fetch (min r (MAX_RESULTS_PER_REQUEST : ℤ)).toNat o = .ok ps →
        ps.isEmpty = false →
        ¬ (ps.length : ℤ) < min r (MAX_RESULTS_PER_REQUEST : ℤ) →
        search_papers_paginated_loop fetch (fuel + 1) r o acc
          = search_papers_paginated_loop fetch fuel (r - ps.length)
              (o + ps.length) (acc ++ ps)) := by
  refine ⟨⟨by decide, rfl⟩, ?_, ?_, ?_, ?_⟩
  · intro P fetch fuel r o acc hr
    simp [search_papers_paginated_loop, hr]
  · intro P fetch fuel r o acc hr hfetch
    simp [search_papers_paginated_loop, not_le.mpr hr, hfetch]
  · intro P fetch fuel r o acc ps hr hfetch hshort
    by_cases hps : ps.isEmpty
    · have : ps = [] := by
        cases ps with
        | nil => rfl
        | cons a t => simp at hps
      simp [search_papers_paginated_loop, not_le.mpr hr, hfetch, hps, this]
    · simp [search_papers_paginated_loop, not_le.mpr hr, hfetch, hps, hshort]
  · intro P fetch fuel r o acc ps hr hfetch hps hlong
    simp [search_papers_paginated_loop, not_le.mpr hr, hfetch, hps, hlong]

/-- Closed witness for C6's hypotheses: a client whose first request fails
makes the loop return the accumulator (here `[5]`) instead of raising. -/
theorem search_papers_paginated_stops_and_advances_witness :
    (0 : ℤ) < 7
    ∧ search_papers_paginated_loop (fun _ _ => (.error () : Except Unit (List ℕ)))
        1 7 0 [5] = [5] :=
  ⟨by decide,
    search_papers_paginated_stops_and_advances.2.2.1 ℕ (fun _ _ => .error ())
      0 7 0 [5] (by decide) rfl⟩

end SemanticScholarSearcher

/-! ### Further string helpers used by `utils/helpers.py` -/

/-- Splitting on whitespace runs, dropping empty pieces: Python `str.split()`.
`cur` accumulates the current word reversed. -/
def pySplitWsAux (cur : List Char) : List Char → List (List Char)
  | [] => if cur = [] then [] else [cur.reverse]
  | c :: rest =>
      if pyIsSpace c then
        if cur = [] then pySplitWsAux [] rest
        else cur.reverse :: pySplitWsAux [] rest
      else pySplitWsAux (c :: cur) rest

/-- Python `str.split()` (no separator argument). -/
def pySplitWs (s : String) : List String :=
  (pySplitWsAux [] s.data).map fun cs => ⟨cs⟩

/-- `str.strip(chars)`: drop characters satisfying `f` from both ends. -/
def stripOn (f : Char → Bool) (cs : List Char) : List Char :=
  ((cs.dropWhile f).reverse.dropWhile f).reverse

/-- Substring containment (Python's `in` on strings). -/
def containsSubChars (pat : List Char) : List Char → Bool
  | [] => pat.isEmpty
  | c :: rest => pat.isPrefixOf (c :: rest) || containsSubChars pat rest

/-- `pat in s` for strings. -/
def containsSub (s pat : String) : Bool :=
  containsSubChars pat.data s.data

/-! ### `utils/helpers.py` -/

namespace Helpers

/-- The character class `[<>:"/\\|?*\x00]` replaced by `_` in
`sanitize_filename`. -/
def invalidFilenameChar (c : Char) : Bool :=
  c = '<' || c = '>' || c = ':' || c = '"' || c = '/' || c = '\\' ||
    c = '|' || c = '?' || c = '*' || c = '\x00'

/-- `re.sub(r'[\s_]+', '_', …)`: collapse every run of whitespace or
underscores to a single underscore.  `inRun` records whether the previous
character belonged to such a run. -/
def collapseRunsAux (inRun : Bool) : List Char → List Char
  | [] => []
  | c :: rest =>
      if pyIsSpace c || c = '_' then
        if inRun then collapseRunsAux true rest
        else '_' :: collapseRunsAux true rest
      else c :: collapseRunsAux false rest

/-- `helpers.sanitize_filename(text, max_length)`. -/
def sanitize_filename (text : String) (maxLength : ℕ) : String :=
  if text = "" then "unknown"
  else
    let s1 := text.data.map fun c => if invalidFilenameChar c then '_' else c
    let s2 := collapseRunsAux false s1
    let s3 := stripOn (fun c => c = '.' || c = ' ') s2
    let s4 :=
      if maxLength < s3.length then
        ((s3.take maxLength).reverse.dropWhile (fun c => c = '_')).reverse
      else s3
    if s4 = [] then "unknown" else ⟨s4⟩

/-- `helpers.get_first_author_lastname(authors)` (the pydantic-model branch:
every `Author` has a `name` attribute). -/
def get_first_author_lastname (authors : Option (List Author)) : String :=
  match authors with
  | none => "unknown"
  | some [] => "unknown"
  | some (first :: _) =>
      if first.name = "" then "unknown"
      else
        match (pySplitWs first.name).getLast? with
        | none => "unknown"
        | some last => sanitize_filename last 20

/-- `helpers.generate_pdf_filename(title, authors, year)`:
`f"{first_author_lastname}{year_str}_{sanitized_title}.pdf"`.  Python's
`str(year) if year else "unknown"` treats `year = 0` as falsy. -/
def generate_pdf_filename (title : String) (authors : Option (List Author))
    (year : Option Int) : String :=
  let authorLastname := get_first_author_lastname authors
  let yearStr :=
    match year with
    | some y => if y = 0 then "unknown" else toString y
    | none => "unknown"
  let sanitizedTitle := sanitize_filename title 50
  authorLastname ++ yearStr ++ "_" ++ sanitizedTitle ++ ".pdf"

/-- Sanity evaluation of the filename pipeline on a typical paper. -/
theorem generate_pdf_filename_eval :
    generate_pdf_filename "A Study: of Things" (some [⟨none, "John Smith"⟩]) (some 2020)
      = "Smith2020_A_Study_of_Things.pdf" := by decide

end Helpers

/-! ### `paper_retrieval/downloader.py` -/

namespace PDFDownloader

/-- The observable pieces of an HTTP response used by `download_pdf`: the
status (`raise_for_status` throws at ≥ 400), the `Content-Type` header and
the body bytes. -/
structure HttpResponse where
  status : ℕ
  contentType : String
  content : List UInt8

/-- Result of one `download_pdf` call over an explicit filesystem model:
the returned path (`None` on failure), the set of files on disk afterwards,
and whether an outbound network request was issued. -/
structure DownloadOutcome where
  result : Option String
  fs : List String
  requested : Bool
deriving DecidableEq

/-- The four bytes `b"%PDF"`. -/
def pdfMagic : List UInt8 := [0x25, 0x50, 0x44, 0x46]

/-- The filename resolution at the top of `download_pdf`: `if not filename:`
regenerates also for an explicitly passed empty string. -/
def resolvedFilename (paper : PaperMetadata) (filename? : Option String) : String :=
  match filename? with
  | none => Helpers.generate_pdf_filename paper.title paper.authors paper.year
  | some f => if f = "" then Helpers.generate_pdf_filename paper.title paper.authors paper.year else f

/-- `os.path.join(self.download_dir, filename)` in the plain
relative-directory case exercised by the downloader. -/
def resolvedFilepath (downloadDir : String) (paper : PaperMetadata)
    (filename? : Option String) : String :=
  downloadDir ++ "/" ++ resolvedFilename paper filename?

/-- `PDFDownloader.download_pdf`.  The network is the oracle `fetch`
(`none` models a raised `RequestException`, after which the partially
written file is removed — the model never records it); the filesystem is the
explicit list `fs` of existing paths.  Failure paths return `none` rather
than raising, and only the fetch branches count as a request. -/
def download_pdf (fetch : String → Option HttpResponse) (fs : List String)
    (downloadDir : String) (paper : PaperMetadata) (filename? : Option String) :
    DownloadOutcome :=
  match paper.get_pdf_url with
  | none => ⟨none, fs, false⟩
  | some url =>
      let filepath := resolvedFilepath downloadDir paper filename?
      if filepath ∈ fs then ⟨some filepath, fs, false⟩
      else
        match fetch url with
        | none => ⟨none, fs, true⟩
        | some resp =>
            if 400 ≤ resp.status then ⟨none, fs, true⟩
            else
              let ct := String.mk (resp.contentType.data.map Char.toLower)
              if ¬ containsSub ct "pdf" ∧ resp.content.take 4 ≠ pdfMagic then
                ⟨none, fs, true⟩
              else ⟨some filepath, filepath :: fs, true⟩

/-- If the paper has a PDF URL and its resolved filepath is already on disk,
`download_pdf` returns that path without requesting and leaves the disk
unchanged (`# Skip if file already exists`). -/
theorem download_pdf_exists_skip (fetch : String → Option HttpResponse)
    (fs : List String) (downloadDir : String) (paper : PaperMetadata)
    (filename? : Option String)
    (hpdf : paper.get_pdf_url.isSome = true)
    (hexists : resolvedFilepath downloadDir paper filename? ∈ fs) :
    download_pdf fetch fs downloadDir paper filename?
      = ⟨some (resolvedFilepath downloadDir paper filename?), fs, false⟩ := by
  unfold download_pdf
  match hu : paper.get_pdf_url with
  | none => rw [hu] at hpdf; simp at hpdf
  | some url => simp [hexists]

/-- Every call either fails (`None`) or returns the resolved filepath, which
afterwards is on disk, for a paper that had a PDF URL. -/
theorem download_pdf_result_characterized (fetch : String → Option HttpResponse)
    (fs : List String) (downloadDir : String) (paper : PaperMetadata)
    (filename? : Option String) :
    (download_pdf fetch fs downloadDir paper filename?).result = none
    ∨ ((download_pdf fetch fs downloadDir paper filename?).result
          = some (resolvedFilepath downloadDir paper filename?)
        ∧ resolvedFilepath downloadDir paper filename?
            ∈ (download_pdf fetch fs downloadDir paper filename?).fs
        ∧ paper.get_pdf_url.isSome = true) := by
  unfold download_pdf
  match hu : paper.get_pdf_url with
  | none => left; rfl
  | some url =>
      by_cases hmem : resolvedFilepath downloadDir paper filename? ∈ fs
      · right
        simp [hmem]
      · simp only [if_neg hmem]
        match fetch url with
        | none => left; rfl
        | some resp =>
            by_cases hst : 400 ≤ resp.status
            · left; simp [hst]
            · simp only [if_neg hst]
              by_cases hpdfct : containsSub (String.mk (resp.contentType.data.map Char.toLower)) "pdf"
              · right; simp [hpdfct]
              · by_cases hmagic : resp.content.take 4 = pdfMagic
                · right; simp [hpdfct, hmagic]
                · left; simp [hpdfct, hmagic]

/-- C9: `download_pdf` is idempotent by filename.  (1) If the generated
filename already exists in the download directory, the call returns that
path, issues no network request and leaves the disk unchanged.  (2) Whenever
a call returns a filepath, an immediately following call for the same paper —
under any network behavior — returns the same filepath without requesting,
so of two consecutive calls only the first can fetch. -/
theorem download_pdf_idempotent (fetch fetch₂ : String → Option HttpResponse)
    (fs : List String) (downloadDir : String) (paper : PaperMetadata)
    (filename? : Option String) (fp : String)
    (hpdf : paper.get_pdf_url.isSome)
    (hexists : resolvedFilepath downloadDir paper filename? ∈ fs)
    (hres : (download_pdf fetch₂ fs downloadDir paper filename?).result = some fp) :
    download_pdf fetch fs downloadDir paper filename?
      = ⟨some (resolvedFilepath downloadDir paper filename?), fs, false⟩
    ∧ download_pdf fetch (download_pdf fetch₂ fs downloadDir paper filename?).fs
        downloadDir paper filename?
      = ⟨some fp, (download_pdf fetch₂ fs downloadDir paper filename?).fs, false⟩ := by
  refine ⟨download_pdf_exists_skip fetch fs downloadDir paper filename? hpdf hexists, ?_⟩
  rcases download_pdf_result_characterized fetch₂ fs downloadDir paper filename? with
    hnone | ⟨hr, hmem, hpdf2⟩
  · rw [hnone] at hres
    exact absurd hres (by simp)
  · have hfp : fp = resolvedFilepath downloadDir paper filename? := by
      rw [hr] at hres
      exact (Option.some.injEq _ _ ▸ hres).symm
    subst hfp
    exact download_pdf_exists_skip fetch _ downloadDir paper filename? hpdf2 hmem

/-- Closed witness for C9 at a concrete paper whose file is already on disk:
the result is the existing path, with no network request either time. -/
theorem download_pdf_idempotent_witness :
    download_pdf (fun _ => none) ["dl/x.pdf"] "dl" PaperSelector.paperWithPdf (some "x.pdf")
      = ⟨some "dl/x.pdf", ["dl/x.pdf"], false⟩
    ∧ download_pdf (fun _ => none)
        (download_pdf (fun _ => none) ["dl/x.pdf"] "dl" PaperSelector.paperWithPdf (some "x.pdf")).fs
        "dl" PaperSelector.paperWithPdf (some "x.pdf")
      = ⟨some "dl/x.pdf",
          (download_pdf (fun _ => none) ["dl/x.pdf"] "dl" PaperSelector.paperWithPdf (some "x.pdf")).fs,
          false⟩ :=
  download_pdf_idempotent (fun _ => none) (fun _ => none) ["dl/x.pdf"] "dl"
    PaperSelector.paperWithPdf (some "x.pdf") "dl/x.pdf" (by decide) (by decide) (by decide)

end PDFDownloader

/-! ### `section_analyzer.py` -/

namespace SectionAnalyzer

/-- The pieces of one loaded section-data JSON file that
`compare_papers_by_sections` reads: the metadata title when present
(`.get('metadata', {}).get('title', 'Unknown')`) and the `type` field of each
entry of `sections`, in file order. -/
structure PaperSectionData where
  title : Option String
  sectionTypes : List String
deriving DecidableEq

/-- The per-paper record appended to `comparison['papers']`.  Python's
`list(set(...))` iterates a hash set in unspecified order; it is modelled as
first-occurrence-order deduplication, which fixes exactly the same underlying
set and therefore the same counts. -/
structure PaperInfo where
  file : String
  title : String
  sectionCount : ℕ
  sectionTypes : List String
deriving DecidableEq

/-- The value returned by `compare_papers_by_sections` (after the
`dict(...)` conversions). -/
structure SectionComparison where
  papers : List PaperInfo
  commonSections : List (String × ℕ)
  sectionFrequency : List (String × ℕ)
  averageSectionsPerPaper : ℚ
deriving DecidableEq

/-- First-occurrence deduplication with an explicit `seen` accumulator. -/
def dedupFirstAux (seen : List String) : List String → List String
  | [] => []
  | x :: rest =>
      if x ∈ seen then dedupFirstAux seen rest
      else x :: dedupFirstAux (x :: seen) rest

/-- `list(set(l))`, in first-occurrence order. -/
def dedupFirst (l : List String) : List String :=
  dedupFirstAux [] l

/-- One `defaultdict(int)` / `Counter` increment, preserving insertion order
of keys. -/
def bumpAssoc (m : List (String × ℕ)) (key : String) : List (String × ℕ) :=
  match m with
  | [] => [(key, 1)]
  | (k, v) :: rest => if k = key then (k, v + 1) :: rest else (k, v) :: bumpAssoc rest key

/-- The loop body of `compare_papers_by_sections`: a file whose load failed
(`None`) is skipped; otherwise the paper info is appended, both counters are
bumped once per distinct section type, and the total section count grows. -/
def compareStep (st : List PaperInfo × List (String × ℕ) × List (String × ℕ) × ℕ)
    (f : String × Option PaperSectionData) :
    List PaperInfo × List (String × ℕ) × List (String × ℕ) × ℕ :=
  match f.2 with
  | none => st
  | some pd =>
      let types := dedupFirst pd.sectionTypes
      let info : PaperInfo := ⟨f.1, pd.title.getD "Unknown", pd.sectionTypes.length, types⟩
      (st.1 ++ [info], types.foldl bumpAssoc st.2.1, types.foldl bumpAssoc st.2.2.1,
        st.2.2.2 + pd.sectionTypes.length)

/-- `SectionAnalyzer.compare_papers_by_sections`, over the already-loaded
file contents (file loading is I/O; a failed `load_section_data` is `none`).
`average_sections_per_paper` stays `0` when no paper loaded, else it is the
true division `total_sections / len(papers)`. -/
def compare_papers_by_sections (files : List (String × Option PaperSectionData)) :
    SectionComparison :=
  let st := files.foldl compareStep ([], [], [], 0)
  ⟨st.1, st.2.1, st.2.2.1,
    if st.1 = [] then 0 else (st.2.2.2 : ℚ) / st.1.length⟩

/-- The number of loaded papers containing section type `t`. -/
def countPapersWith (t : String) (files : List (String × Option PaperSectionData)) : ℕ :=
  ((files.filterMap Prod.snd).filter (fun pd => decide (t ∈ pd.sectionTypes))).length

/-- Modelled from the claim's words: the coverage fraction `count / N` that
the claim says is reported for each section type (`N` = number of papers). -/
def claimedCoverageFraction (files : List (String × Option PaperSectionData))
    (t : String) : ℚ :=
  (countPapersWith t files : ℚ) / ((files.filterMap Prod.snd).length : ℚ)

theorem count_dedupFirstAux (t : String) :
    ∀ (l : List String) (seen : List String),
      (dedupFirstAux seen l).count t = if t ∈ l ∧ t ∉ seen then 1 else 0
  | [], seen => by simp [dedupFirstAux]
  | x :: rest, seen => by
      by_cases hx : x ∈ seen
      · rw [dedupFirstAux, if_pos hx, count_dedupFirstAux t rest seen]
        by_cases ht : t = x
        · subst ht
          simp [hx]
        · simp [ht]
      · rw [dedupFirstAux, if_neg hx]
        by_cases ht : t = x
        · subst ht
          rw [List.count_cons_self, count_dedupFirstAux t rest (t :: seen)]
          simp [hx]
        · rw [List.count_cons_of_ne ht, count_dedupFirstAux t rest (x :: seen)]
          simp [ht]

/-- Deduplication makes each present type count exactly once. -/
theorem count_dedupFirst (t : String) (l : List String) :
    (dedupFirst l).count t = if t ∈ l then 1 else 0 := by
  rw [dedupFirst, count_dedupFirstAux]
  simp

theorem lookup_bumpAssoc (t key : String) :
    ∀ m : List (String × ℕ),
      (bumpAssoc m key).lookup t
        = if t = key then some (((m.lookup t).getD 0) + 1) else m.lookup t
  | [] => by
      by_cases ht : t = key
      · subst ht; simp [bumpAssoc, List.lookup]
      · have hb : (t == key) = false := beq_eq_false_iff_ne.mpr ht
        simp [bumpAssoc, List.lookup, hb, ht]
  | (k, v) :: rest => by
      by_cases hk : k = key
      · subst hk
        by_cases ht : t = k
        · subst ht; simp [bumpAssoc, List.lookup]
        · have hb : (t == k) = false := beq_eq_false_iff_ne.mpr ht
          simp [bumpAssoc, List.lookup, hb, ht]
      · by_cases ht : t = k
        · have hb : (t == k) = true := beq_iff_eq.mpr ht
          have hne : ¬ t = key := fun h => hk (ht.symm.trans h)
          simp [bumpAssoc, hk, List.lookup, hb, hne]
        · have hb : (t == k) = false := beq_eq_false_iff_ne.mpr ht
          simp [bumpAssoc, hk, List.lookup, hb, ht, lookup_bumpAssoc t key rest]

/-- Folding `bumpAssoc` over a list adds the number of occurrences to the
looked-up value (absent keys reading as 0). -/
theorem lookup_foldl_bumpAssoc (t : String) :
    ∀ (types : List String) (m : List (String × ℕ)),
      ((types.foldl bumpAssoc m).lookup t).getD 0 = (m.lookup t).getD 0 + types.count t
  | [], m => by simp
  | x :: rest, m => by
      rw [List.foldl_cons, lookup_foldl_bumpAssoc t rest (bumpAssoc m x), lookup_bumpAssoc t x m]
      by_cases ht : t = x
      · subst ht
        simp [List.count_cons_self]
        omega
      · rw [List.count_cons_of_ne ht]
        simp [ht]

/-- Loop invariant of `compare_papers_by_sections`: paper count, section
total and both per-type counters grow by exactly the contribution of the
processed files. -/
theorem compare_foldl_invariant (files : List (String × Option PaperSectionData)) :
    ∀ st : List PaperInfo × List (String × ℕ) × List (String × ℕ) × ℕ,
      (files.foldl compareStep st).1.length
          = st.1.length + (files.filterMap Prod.snd).length
      ∧ (files.foldl compareStep st).2.2.2
          = st.2.2.2 + ((files.filterMap Prod.snd).map (fun pd => pd.sectionTypes.length)).sum
      ∧ ∀ t, (((files.foldl compareStep st).2.1.lookup t).getD 0
            = (st.2.1.lookup t).getD 0 + countPapersWith t files)
          ∧ (((files.foldl compareStep st).2.2.1.lookup t).getD 0
            = (st.2.2.1.lookup t).getD 0 + countPapersWith t files) := by
  induction files with
  | nil => intro st; simp [countPapersWith]
  | cons f rest ih =>
      intro st
      rw [List.foldl_cons]
      match hf : f.2 with
      | none =>
          have hst : compareStep st f = st := by
            unfold compareStep; rw [hf]
          rw [hst]
          rcases ih st with ⟨h1, h2, h3⟩
          refine ⟨?_, ?_, ?_⟩
          · simpa [List.filterMap_cons, hf] using h1
          · simpa [List.filterMap_cons, hf] using h2
          · intro t
            rcases h3 t with ⟨ha, hb⟩
            constructor
            · simpa [countPapersWith, List.filterMap_cons, hf] using ha
            · simpa [countPapersWith, List.filterMap_cons, hf] using hb
      | some pd =>
          have hst : compareStep st f
              = (st.1 ++ [⟨f.1, pd.title.getD "Unknown", pd.sectionTypes.length,
                    dedupFirst pd.sectionTypes⟩],
                 (dedupFirst pd.sectionTypes).foldl bumpAssoc st.2.1,
                 (dedupFirst pd.sectionTypes).foldl bumpAssoc st.2.2.1,
                 st.2.2.2 + pd.sectionTypes.length) := by
            unfold compareStep; rw [hf]
          rw [hst]
          rcases ih (st.1 ++ [⟨f.1, pd.title.getD "Unknown", pd.sectionTypes.length,
                dedupFirst pd.sectionTypes⟩],
              (dedupFirst pd.sectionTypes).foldl bumpAssoc st.2.1,
              (dedupFirst pd.sectionTypes).foldl bumpAssoc st.2.2.1,
              st.2.2.2 + pd.sectionTypes.length) with ⟨h1, h2, h3⟩
          refine ⟨?_, ?_, ?_⟩
          · rw [h1]
            simp [List.filterMap_cons, hf]
            omega
          · rw [h2]
            simp [List.filterMap_cons, hf]
            omega
          · intro t
            rcases h3 t with ⟨ha, hb⟩
            have hrw : countPapersWith t (f :: rest)
                = (if t ∈ pd.sectionTypes then 1 else 0) + countPapersWith t rest := by
              unfold countPapersWith
              rw [List.filterMap_cons, hf]
              by_cases hmem : t ∈ pd.sectionTypes <;>
                simp [List.filter_cons, hmem] <;> omega
            constructor
            · rw [ha, lookup_foldl_bumpAssoc, count_dedupFirst, hrw]
              by_cases hmem : t ∈ pd.sectionTypes <;> simp [hmem] <;> omega
            · rw [hb, lookup_foldl_bumpAssoc, count_dedupFirst, hrw]
              by_cases hmem : t ∈ pd.sectionTypes <;> simp [hmem] <;> omega

/-- C8 amended: `compare_papers_by_sections` reports, for each section type,
the count of loaded papers containing that type (in both `section_frequency`
and `common_sections`, an absent key reading as count 0), along with the
number of papers and the average number of sections per paper
(`total_sections / N`, and 0 when no paper loads); the `count / N` coverage
fraction itself is not part of the output. -/
theorem compare_papers_counts_and_average (files : List (String × Option PaperSectionData)) :
    (∀ t, ((compare_papers_by_sections files).sectionFrequency.lookup t).getD 0
          = countPapersWith t files
        ∧ ((compare_papers_by_sections files).commonSections.lookup t).getD 0
          = countPapersWith t files)
    ∧ (compare_papers_by_sections files).papers.length = (files.filterMap Prod.snd).length
    ∧ (compare_papers_by_sections files).averageSectionsPerPaper
        = if (files.filterMap Prod.snd).length = 0 then 0
          else (((files.filterMap Prod.snd).map (fun pd => pd.sectionTypes.length)).sum : ℚ)
              / ((files.filterMap Prod.snd).length : ℚ) := by
  rcases compare_foldl_invariant files ([], [], [], 0) with ⟨h1, h2, h3⟩
  refine ⟨?_, ?_, ?_⟩
  · intro t
    rcases h3 t with ⟨ha, hb⟩
    constructor
    · simpa [compare_papers_by_sections] using hb
    · simpa [compare_papers_by_sections] using ha
  · simpa [compare_papers_by_sections] using h1
  · have hlen : (files.foldl compareStep ([], [], [], 0)).1.length
        = (files.filterMap Prod.snd).length := by simpa using h1
    have hsum : (files.foldl compareStep ([], [], [], 0)).2.2.2
        = ((files.filterMap Prod.snd).map (fun pd => pd.sectionTypes.length)).sum := by
      simpa using h2
    show (if (files.foldl compareStep ([], [], [], 0)).1 = [] then (0 : ℚ)
          else ((files.foldl compareStep ([], [], [], 0)).2.2.2 : ℚ)
              / ((files.foldl compareStep ([], [], [], 0)).1.length : ℚ)) = _
    rw [hsum]
    by_cases hnil : (files.foldl compareStep ([], [], [], 0)).1 = []
    · rw [if_pos hnil]
      have : (files.filterMap Prod.snd).length = 0 := by
        rw [← hlen, hnil]; rfl
      rw [if_pos this]
    · rw [if_neg hnil, hlen]
      have : ¬ (files.filterMap Prod.snd).length = 0 := by
        rw [← hlen]
        simpa [List.length_eq_zero] using hnil
      rw [if_neg this, Nat.cast_list_sum, List.map_map]
      rfl

/-- C8 counterexample: with two loaded papers, one containing `abstract`, the
claimed coverage fraction for `abstract` is 1/2, but the comparison output
carries the count 1 in `section_frequency` (and `common_sections`); no field
of the output equals the fraction — the full output record is computed
explicitly. -/
theorem compare_papers_reports_count_not_fraction :
    compare_papers_by_sections
        [("a.json", some ⟨some "Paper One", ["abstract"]⟩),
         ("b.json", some ⟨some "Paper Two", ["introduction"]⟩)]
      = ⟨[⟨"a.json", "Paper One", 1, ["abstract"]⟩,
          ⟨"b.json", "Paper Two", 1, ["introduction"]⟩],
         [("abstract", 1), ("introduction", 1)],
         [("abstract", 1), ("introduction", 1)], 1⟩
    ∧ claimedCoverageFraction
        [("a.json", some ⟨some "Paper One", ["abstract"]⟩),
         ("b.json", some ⟨some "Paper Two", ["introduction"]⟩)] "abstract" = 1/2
    ∧ (compare_papers_by_sections
        [("a.json", some ⟨some "Paper One", ["abstract"]⟩),
         ("b.json", some ⟨some "Paper Two", ["introduction"]⟩)]).sectionFrequency.lookup
          "abstract" = some 1
    ∧ (1 : ℚ) ≠ 1/2 := by
  refine ⟨?_, ?_, ?_, by norm_num⟩
  · norm_num [compare_papers_by_sections, compareStep, dedupFirst, dedupFirstAux, bumpAssoc]
    exact ⟨by decide, by decide⟩
  · simp only [claimedCoverageFraction, countPapersWith, List.filterMap_cons, List.filterMap_nil,
      List.filter_cons, List.filter_nil]
    have h1 : decide ("abstract" ∈ ["abstract"]) = true := by decide
    have h2 : decide ("abstract" ∈ ["introduction"]) = false := by decide
    rw [h1, h2]
    norm_num
  · norm_num [compare_papers_by_sections, compareStep, dedupFirst, dedupFirstAux, bumpAssoc,
      List.lookup]

end SectionAnalyzer

/-! ### `section_extractor.py` -/

namespace SectionWiseExtractor

/-- Python `str.split('\n')` (keeps empty pieces). -/
def splitLinesAux (cur : List Char) : List Char → List (List Char)
  | [] => [cur.reverse]
  | c :: rest =>
      if c = '\n' then cur.reverse :: splitLinesAux [] rest
      else splitLinesAux (c :: cur) rest

/-- `full_text.split('\n')`. -/
def pyLines (s : String) : List String :=
  (splitLinesAux [] s.data).map fun cs => ⟨cs⟩

/-- `str.lower()` (ASCII). -/
def pyLower (s : String) : String :=
  ⟨s.data.map Char.toLower⟩

/-- One header regex from `section_patterns`, applied with `re.match` to an
already `strip()`ped, lowercased line.  All the source's patterns have the
shape `^w₁\s+w₂…\s*$` (`words`, matching iff the whitespace-split line equals
the token list — `experiments?` is expanded into its two words) or are the
single-space literal `^a b s t r a c t\s*$` (`lit`, an exact match on a
stripped line). -/
inductive HeaderPat where
  | words : List String → HeaderPat
  | lit : String → HeaderPat

/-- Whether a pattern matches a (stripped, lowercased) line. -/
def matchPat (line : String) : HeaderPat → Bool
  | .words ws => pySplitWs line == ws
  | .lit s => line == s

/-- `self.section_patterns`, in dict insertion order (`summary` is listed
under both `abstract` and `conclusion`; the earlier entry wins). -/
def section_patterns : List (String × List HeaderPat) :=
  [("abstract", [.words ["abstract"], .lit "a b s t r a c t", .words ["summary"]]),
   ("introduction", [.words ["introduction"], .words ["1", "introduction"],
      .words ["i", "introduction"]]),
   ("related_work", [.words ["related", "work"], .words ["literature", "review"],
      .words ["background"], .words ["2", "related", "work"]]),
   ("methodology", [.words ["methodology"], .words ["methods"], .words ["method"],
      .words ["approach"], .words ["3", "methodology"]]),
   ("experiments", [.words ["experiments"], .words ["experiment"],
      .words ["experimental", "setup"], .words ["evaluation"],
      .words ["4", "experiments"], .words ["4", "experiment"]]),
   ("results", [.words ["results"], .words ["findings"], .words ["5", "results"]]),
   ("discussion", [.words ["discussion"], .words ["analysis"], .words ["6", "discussion"]]),
   ("conclusion", [.words ["conclusion"], .words ["conclusions"], .words ["summary"],
      .words ["7", "conclusion"]]),
   ("references", [.words ["references"], .words ["bibliography"], .words ["8", "references"]]),
   ("appendix", [.words ["appendix"], .words ["appendices"], .words ["a", "appendix"]])]

/-- First section type whose pattern list matches the line, scanning in
insertion order. -/
def findCanonical (line : String) : List (String × List HeaderPat) → Option String
  | [] => none
  | (t, pats) :: rest =>
      if pats.any (matchPat line) then some t else findCanonical line rest

/-- The decomposition performed by `^(\d+|[ivx]+)\.?\s+(.+)$` on a stripped
lowercased line: the first whitespace-delimited word must be a digit run or a
run over `{i,v,x}`, optionally followed by one dot, and at least one
character must follow the separating whitespace; the returned title is the
rest of the line. -/
def numberedSplit (line : String) : Option String :=
  let cs := line.data
  let w := cs.takeWhile fun c => ¬ pyIsSpace c
  let rest := (cs.drop w.length).dropWhile pyIsSpace
  if rest.isEmpty then none
  else
    let core := if w.getLast? = some '.' then w.dropLast else w
    if ¬ core.isEmpty
        ∧ (core.all Char.isDigit ∨ core.all fun c => c = 'i' ∨ c = 'v' ∨ c = 'x') then
      some ⟨rest⟩
    else none

/-- `SectionWiseExtractor._identify_section_type` on the stripped header
candidate: exact canonical match → confidence 1.0; a numbered variant whose
title part matches a canonical pattern → 0.8; otherwise `unknown` at 0.0.
`0.8` and the caller's threshold `0.7` appear as `mkRat` literals of the same
value. -/
def identify_section_type (line : String) : String × ℚ :=
  let lineLower := pyLower line
  match findCanonical lineLower section_patterns with
  | some t => (t, 1)
  | none =>
      match numberedSplit lineLower with
      | some title =>
          match findCanonical title section_patterns with
          | some t => (t, mkRat 8 10)
          | none => ("unknown", 0)
      | none => ("unknown", 0)

/-- `Section` dataclass; `word_count` is set by `__post_init__` from the
content (see `Section.make`). -/
structure Section where
  title : String
  content : String
  start_page : ℕ
  end_page : ℕ
  section_type : String
  word_count : ℕ
deriving DecidableEq

/-- Construction of a `Section`, running `__post_init__`. -/
def Section.make (title content : String) (sp ep : ℕ) (ty : String) : Section :=
  ⟨title, content, sp, ep, ty, (pySplitWs content).length⟩

/-- A page-marker line: `"--- Page" in line`. -/
def isPageMarker (s : String) : Bool :=
  containsSub s "--- Page"

/-- `re.search(r'Page (\d+)', line)`: the earliest occurrence of `Page `
followed by a digit, reading the maximal digit run. -/
def findPageNumChars : List Char → Option ℕ
  | [] => none
  | c :: rest =>
      if ("Page ".data).isPrefixOf (c :: rest) &&
          (match (c :: rest).drop 5 with
           | d :: _ => d.isDigit
           | [] => false) then
        some ((((c :: rest).drop 5).takeWhile Char.isDigit).foldl
          (fun acc d => acc * 10 + (d.toNat - 48)) 0)
      else findPageNumChars rest

/-- Page lookup on a marker line. -/
def findPageNum (s : String) : Option ℕ :=
  findPageNumChars s.data

/-- The first loop of `detect_sections`: assign each line its page
(`line_to_page`), page markers getting no entry (`none`) and updating the
current page when they carry a number. -/
def computePagesAux (curPage : ℕ) : List String → List (Option ℕ)
  | [] => []
  | line :: rest =>
      if isPageMarker line then
        none :: computePagesAux ((findPageNum line).getD curPage) rest
      else some curPage :: computePagesAux curPage rest

/-- The mutable `current_section` dict of the detection loop. -/
structure CurSection where
  title : String
  sectionType : String
  startPage : ℕ
deriving DecidableEq

/-- The loop state: emitted sections, active section, content buffer. -/
structure DetectState where
  sections : List Section
  cur : Option CurSection
  buf : List String
deriving DecidableEq

/-- Initial state: no sections, no active section, empty buffer. -/
def initState : DetectState := ⟨[], none, []⟩

/-- `'\n'.join(current_content)`. -/
def strJoinNl : List String → String
  | [] => ""
  | [s] => s
  | s :: rest => s ++ "\n" ++ strJoinNl rest

/-- Closing an active section: emit it only when the joined, stripped buffer
is non-empty (empty sections are discarded). -/
def emitIfContent (sections : List Section) (c : CurSection) (buf : List String)
    (endPage : ℕ) : List Section :=
  let content := pyStrip (strJoinNl buf)
  if content = "" then sections
  else sections ++ [Section.make c.title content c.startPage endPage c.sectionType]

/-- One iteration of the detection loop over `(line, line_to_page.get i)`:
markers are skipped; a line classified above 0.7 closes the active section
(end page = this line's page, defaulting to the section's start page) and
opens a new one (start page defaulting to 1); otherwise the raw line is
buffered when a section is active and discarded when none is. -/
def stepLine (st : DetectState) (lp : String × Option ℕ) : DetectState :=
  let lineStripped := pyStrip lp.1
  if isPageMarker lineStripped then st
  else
    let ty := (identify_section_type lineStripped).1
    let conf := (identify_section_type lineStripped).2
    if conf > mkRat 7 10 then
      let newSections :=
        match st.cur with
        | some c => emitIfContent st.sections c st.buf (lp.2.getD c.startPage)
        | none => st.sections
      ⟨newSections, some ⟨lineStripped, ty, lp.2.getD 1⟩, []⟩
    else
      match st.cur with
      | some _ => ⟨st.sections, st.cur, st.buf ++ [lp.1]⟩
      | none => st

/-- The detection loop over all lines. -/
def processLines (st : DetectState) (lps : List (String × Option ℕ)) : DetectState :=
  lps.foldl stepLine st

/-- `SectionWiseExtractor.detect_sections` (the `detect_sections_from_text`
entry point injects the page markers into `full_text`, which is what the
page-marker skipping consumes here): split into lines, compute the per-line
pages, run the loop, and flush the final section when its buffer is a
non-empty list with non-empty stripped content (end page = the last line's
page, defaulting to the start page). -/
def detect_sections (fullText : String) : List Section :=
  let lines := pyLines fullText
  let pages := computePagesAux 1 lines
  let st := processLines initState (lines.zip pages)
  match st.cur, st.buf with
  | some c, _ :: _ =>
      emitIfContent st.sections c st.buf (((pages.getLast?).getD none).getD c.startPage)
  | _, _ => st.sections

/-- C4: on Scenario A (with the injected `--- Page 2 ---` marker before
`Introduction`) the detector emits exactly two sections, `abstract` with
content `This paper studies X. We show Y.` and `introduction` with content
`X has been studied before...`; and, for every input, processing any prefix
of lines that contains no high-confidence header (markers or lines classified
≤ 0.7) leaves the loop in its initial state, i.e. such lines belong to no
section. -/
theorem detect_sections_scenario_and_discard :
    detect_sections "Abstract\nThis paper studies X. We show Y.\n\n--- Page 2 ---\nIntroduction\nX has been studied before..."
      = [Section.make "Abstract" "This paper studies X. We show Y." 1 2 "abstract",
         Section.make "Introduction" "X has been studied before..." 2 2 "introduction"]
    ∧ ∀ (pre rest : List (String × Option ℕ)),
        (∀ lp ∈ pre, isPageMarker (pyStrip lp.1) = true
            ∨ (identify_section_type (pyStrip lp.1)).2 ≤ mkRat 7 10) →
        processLines initState (pre ++ rest) = processLines initState rest := by
  constructor
  · decide
  · intro pre rest
    induction pre with
    | nil => intro _; rfl
    | cons lp t ih =>
        intro h
        have hstep : stepLine initState lp = initState := by
          rcases h lp (List.mem_cons_self lp t) with hm | hc
          · simp [stepLine, hm]
          · by_cases hm : isPageMarker (pyStrip lp.1)
            · simp [stepLine, hm]
            · have hnc : ¬ (mkRat 7 10 < (identify_section_type (pyStrip lp.1)).2) :=
                not_lt.mpr hc
              simp [stepLine, hm, hnc, initState]
        show processLines (stepLine initState lp) (t ++ rest) = processLines initState rest
        rw [hstep]
        exact ih fun x hx => h x (List.mem_cons_of_mem _ hx)

/-- Closed witness for C4's universal part: a non-header line before the
first header is discarded — processing it leaves the initial state. -/
theorem detect_sections_scenario_and_discard_witness :
    processLines initState ([("some stray text", some 1)] ++ [("Abstract", some 1)])
      = processLines initState [("Abstract", some 1)] :=
  detect_sections_scenario_and_discard.2 [("some stray text", some 1)]
    [("Abstract", some 1)] (by decide)

end SectionWiseExtractor

/-! ### `advanced_text_processor.py` -/

namespace AdvancedTextProcessor

/-- `TextQualityMetrics` dataclass. -/
structure TextQualityMetrics where
  readability_score : ℚ
  word_diversity : ℚ
  sentence_complexity : ℚ
  technical_term_density : ℚ
  overall_quality : ℚ
deriving DecidableEq

/-- `CitationInfo` dataclass. -/
structure CitationInfo where
  citation_text : String
  citation_type : String
  confidence : ℚ
  position : ℕ
deriving DecidableEq

/-- `[A-Z]`. -/
def isUpperAZ (c : Char) : Bool := 'A' ≤ c && c ≤ 'Z'

/-- `[a-z]`. -/
def isLowerAZ (c : Char) : Bool := 'a' ≤ c && c ≤ 'z'

/-- A maximal nonempty run of characters satisfying `p` (regex `p+`),
returning the remainder; the patterns below never need to backtrack into
such a run because each run is always followed by a character outside the
class. -/
def many1 (p : Char → Bool) (cs : List Char) : Option (List Char) :=
  let run := cs.takeWhile p
  if run.isEmpty then none else some (cs.drop run.length)

/-- `(?:\s+et\s+al\.)`. -/
def matchEtAl (cs : List Char) : Option (List Char) :=
  match many1 pyIsSpace cs with
  | none => none
  | some r1 =>
      match r1 with
      | 'e' :: 't' :: r2 =>
          match many1 pyIsSpace r2 with
          | none => none
          | some r3 =>
              match r3 with
              | 'a' :: 'l' :: '.' :: r4 => some r4
              | _ => none
      | _ => none

/-- `\([A-Z][a-z]+(?:\s+et\s+al\.)?` — the shared prefix of the two
author-year patterns.  If the optional group matches, the following `,`
cannot (the group starts with whitespace), so trying the group first is
exactly the regex's greedy behavior. -/
def matchAuthorPre (cs : List Char) : Option (List Char) :=
  match cs with
  | '(' :: c :: rest =>
      if isUpperAZ c then
        match many1 isLowerAZ rest with
        | none => none
        | some r1 =>
            match matchEtAl r1 with
            | some r2 => some r2
            | none => some r1
      else none
  | _ => none

/-- `,\s+\d{4}`. -/
def matchCommaYear (cs : List Char) : Option (List Char) :=
  match cs with
  | ',' :: r1 =>
      match many1 pyIsSpace r1 with
      | none => none
      | some r2 =>
          match r2 with
          | d1 :: d2 :: d3 :: d4 :: r3 =>
              if d1.isDigit && d2.isDigit && d3.isDigit && d4.isDigit then some r3
              else none
          | _ => none
  | _ => none

/-- Pattern 0, `\([A-Z][a-z]+(?:\s+et\s+al\.)?,\s+\d{4}\)`: length of the
match starting at the head of `cs`, if any. -/
def matchPat0 (cs : List Char) : Option ℕ :=
  match matchAuthorPre cs with
  | none => none
  | some r1 =>
      match matchCommaYear r1 with
      | none => none
      | some r2 =>
          match r2 with
          | ')' :: r3 => some (cs.length - r3.length)
          | _ => none

/-- Pattern 1, `\[\d+(?:-\d+)?\]`.  After the first digit run, a `-` commits
to the range branch (the fallback `]` cannot match a `-`). -/
def matchPat1 (cs : List Char) : Option ℕ :=
  match cs with
  | '[' :: r1 =>
      match many1 Char.isDigit r1 with
      | none => none
      | some r2 =>
          match r2 with
          | '-' :: r3 =>
              match many1 Char.isDigit r3 with
              | some (']' :: r5) => some (cs.length - r5.length)
              | _ => none
          | ']' :: r5 => some (cs.length - r5.length)
          | _ => none
  | _ => none

/-- Pattern 2, `\([A-Z][a-z]+(?:\s+et\s+al\.)?,\s+\d{4},\s+p\.\s+\d+\)`. -/
def matchPat2 (cs : List Char) : Option ℕ :=
  match matchAuthorPre cs with
  | none => none
  | some r1 =>
      match matchCommaYear r1 with
      | none => none
      | some r2 =>
          match r2 with
          | ',' :: r3 =>
              match many1 pyIsSpace r3 with
              | none => none
              | some r4 =>
                  match r4 with
                  | 'p' :: '.' :: r5 =>
                      match many1 pyIsSpace r5 with
                      | none => none
                      | some r6 =>
                          match many1 Char.isDigit r6 with
                          | some (')' :: r7) => some (cs.length - r7.length)
                          | _ => none
                  | _ => none
          | _ => none

/-- The superscript class `[¹²³⁴⁵⁶⁷⁸⁹₀]`. -/
def isSuperscriptDigit (c : Char) : Bool :=
  c = '¹' || c = '²' || c = '³' || c = '⁴' || c = '⁵' || c = '⁶' || c = '⁷' ||
    c = '⁸' || c = '⁹' || c = '₀'

/-- Pattern 3, `[¹²³⁴⁵⁶⁷⁸⁹₀]+` (greedy, so a run is one match). -/
def matchPat3 (cs : List Char) : Option ℕ :=
  let run := cs.takeWhile isSuperscriptDigit
  if run.isEmpty then none else some run.length

/-- `re.finditer`: scan left to right, taking the leftmost match, recording
`(matched text, start position)` and continuing right after each match
(`skip` counts the characters still inside the previous match). -/
def scanPatternAux (matchLen : List Char → Option ℕ) :
    List Char → ℕ → ℕ → List (String × ℕ)
  | [], _, _ => []
  | c :: rest, pos, skip + 1 => scanPatternAux matchLen rest (pos + 1) skip
  | c :: rest, pos, 0 =>
      match matchLen (c :: rest) with
      | some (n + 1) =>
          (⟨(c :: rest).take (n + 1)⟩, pos) :: scanPatternAux matchLen rest (pos + 1) n
      | _ => scanPatternAux matchLen rest (pos + 1) 0

/-- All matches of one pattern over the text. -/
def scanPattern (matchLen : List Char → Option ℕ) (cs : List Char) : List (String × ℕ) :=
  scanPatternAux matchLen cs 0 0

/-- `AdvancedTextProcessor.extract_citations`: the four patterns are scanned
in order; pattern indices 0 and 2 yield `author_year`, 1 `numbered`, 3
`footnote`; confidence is `0.9 if i < 2 else 0.7` (as exact rationals
`mkRat`). -/
def extract_citations (text : String) : List CitationInfo :=
  let cs := text.data
  ((scanPattern matchPat0 cs).map fun m => ⟨m.1, "author_year", mkRat 9 10, m.2⟩)
    ++ ((scanPattern matchPat1 cs).map fun m => ⟨m.1, "numbered", mkRat 9 10, m.2⟩)
    ++ ((scanPattern matchPat2 cs).map fun m => ⟨m.1, "author_year", mkRat 7 10, m.2⟩)
    ++ ((scanPattern matchPat3 cs).map fun m => ⟨m.1, "footnote", mkRat 7 10, m.2⟩)

/-- C1 counterexample: on Scenario D the second mention is `numbered` with
confidence 0.9, not the claimed 0.7 — `confidence = 0.9 if i < 2 else 0.7`
puts the bracketed-numbered pattern (index 1) in the 0.9 class. -/
theorem extract_citations_numbered_gets_high_confidence :
    extract_citations "See (Smith, 2020) and [3] for details."
      = [⟨"(Smith, 2020)", "author_year", mkRat 9 10, 4⟩,
         ⟨"[3]", "numbered", mkRat 9 10, 22⟩]
    ∧ mkRat 9 10 ≠ mkRat 7 10 := by
  constructor
  · decide
  · decide

/-- C1 amended: Scenario D returns the author-year mention (confidence 0.9)
then the numbered mention (confidence 0.9), in pattern-priority order; in
general every extracted mention has confidence 0.9 or 0.7, `numbered`
mentions always 0.9, `footnote` mentions always 0.7 (author-year mentions
are 0.9 from the plain pattern and 0.7 from the with-page pattern). -/
theorem extract_citations_confidences :
    (∀ (text : String) (c : CitationInfo), c ∈ extract_citations text →
        (c.confidence = mkRat 9 10 ∨ c.confidence = mkRat 7 10)
        ∧ (c.citation_type = "numbered" → c.confidence = mkRat 9 10)
        ∧ (c.citation_type = "footnote" → c.confidence = mkRat 7 10)
        ∧ (c.citation_type = "author_year" ∨ c.citation_type = "numbered"
            ∨ c.citation_type = "footnote"))
    ∧ extract_citations "See (Smith, 2020) and [3] for details."
      = [⟨"(Smith, 2020)", "author_year", mkRat 9 10, 4⟩,
         ⟨"[3]", "numbered", mkRat 9 10, 22⟩] := by
  constructor
  · intro text c hc
    unfold extract_citations at hc
    simp only [List.mem_append, List.mem_map] at hc
    rcases hc with ((⟨m, -, hm⟩ | ⟨m, -, hm⟩) | ⟨m, -, hm⟩) | ⟨m, -, hm⟩ <;>
      subst hm <;> exact ⟨by simp, by simp, by simp, by simp⟩
  · decide

/-- Closed witness for C1's membership hypothesis: the Scenario-D author-year
mention satisfies the confidence characterization. -/
theorem extract_citations_confidences_witness :
    (⟨"(Smith, 2020)", "author_year", mkRat 9 10, 4⟩ : CitationInfo)
        ∈ extract_citations "See (Smith, 2020) and [3] for details."
    ∧ ((mkRat 9 10 = mkRat 9 10 ∨ mkRat 9 10 = mkRat 7 10)
        ∧ ("author_year" = "numbered" → mkRat 9 10 = mkRat 9 10)
        ∧ ("author_year" = "footnote" → mkRat 9 10 = mkRat 7 10)
        ∧ ("author_year" = "author_year" ∨ "author_year" = "numbered"
            ∨ "author_year" = "footnote")) :=
  ⟨by decide,
    extract_citations_confidences.1 "See (Smith, 2020) and [3] for details."
      ⟨"(Smith, 2020)", "author_year", mkRat 9 10, 4⟩ (by decide)⟩

/-- The vowels `"aeiouy"` of `_count_syllables`. -/
def vowelChar (c : Char) : Bool :=
  c = 'a' || c = 'e' || c = 'i' || c = 'o' || c = 'u' || c = 'y'

/-- Count vowel-group starts (a vowel whose predecessor was not a vowel). -/
def countVowelGroups : Bool → List Char → ℕ
  | _, [] => 0
  | prevVowel, c :: rest =>
      (if vowelChar c && !prevVowel then 1 else 0) + countVowelGroups (vowelChar c) rest

/-- `AdvancedTextProcessor._count_syllables`: vowel groups on the lowercased
word, minus one for a final silent `e` when the count exceeds 1, floored
at 1. -/
def count_syllables (word : String) : ℕ :=
  let w := word.data.map Char.toLower
  let n := countVowelGroups false w
  let n := if w.getLast? = some 'e' ∧ n > 1 then n - 1 else n
  max 1 n

/-- Python `text.split('.')` (keeps empty pieces). -/
def splitDotAux (cur : List Char) : List Char → List (List Char)
  | [] => [cur.reverse]
  | c :: rest =>
      if c = '.' then cur.reverse :: splitDotAux [] rest
      else splitDotAux (c :: cur) rest

/-- `[s.strip() for s in text.split('.') if s.strip()]`. -/
def pySentences (text : String) : List String :=
  ((splitDotAux [] text.data).map fun cs => pyStrip ⟨cs⟩).filter (· ≠ "")

/-- `word.lower().strip('.,!?;:')` used for the uniqueness set. -/
def normalizeWord (w : String) : String :=
  ⟨stripOn (fun c => c = '.' || c = ',' || c = '!' || c = '?' || c = ';' || c = ':')
    (w.data.map Char.toLower)⟩

/-- `self.technical_terms` flattened in dict/list order (`algorithm` occurs
in both the machine-learning and computer-science lists and is therefore
counted twice per occurrence). -/
def technical_terms : List String :=
  ["neural network", "deep learning", "algorithm", "training", "model", "dataset",
   "accuracy", "precision", "recall", "f1-score",
   "quantum", "particle", "energy", "momentum", "wave function", "equation",
   "theory", "experiment", "measurement", "observation",
   "cell", "protein", "gene", "dna", "rna", "enzyme", "metabolism", "organism",
   "evolution", "mutation",
   "algorithm", "complexity", "data structure", "programming", "software",
   "hardware", "network", "database", "security"]

/-- `\w` (ASCII). -/
def isWordChar (c : Char) : Bool :=
  c.isAlphanum || c = '_'

/-- `\b` before a match: start of text or a non-word character. -/
def boundaryBefore : Option Char → Bool
  | none => true
  | some p => !isWordChar p

/-- `\b` after a match: end of text or a non-word character. -/
def boundaryAfter : List Char → Bool
  | [] => true
  | d :: _ => !isWordChar d

/-- Count the non-overlapping whole-word occurrences of `term`
(`re.findall(rf'\b{re.escape(term)}\b', …)`), walking one character at a
time; `prev` is the character before the current position and `skip` the
characters still inside the previous match. -/
def countTermAux (term : List Char) : Option Char → ℕ → List Char → ℕ
  | _, _, [] => 0
  | _, skip + 1, c :: rest => countTermAux term (some c) skip rest
  | prev, 0, c :: rest =>
      if boundaryBefore prev && term.isPrefixOf (c :: rest)
          && boundaryAfter ((c :: rest).drop term.length) then
        match term.length with
        | n + 1 => 1 + countTermAux term (some c) n rest
        | 0 => countTermAux term (some c) 0 rest
      else countTermAux term (some c) 0 rest

/-- Whole-word, case-insensitive occurrence count of one term. -/
def countTerm (term text : List Char) : ℕ :=
  countTermAux term none 0 text

/-- The doubly-nested counting loop of `assess_text_quality`: total matches
of every technical term (duplicated terms counted per list entry). -/
def technicalCount (text : String) : ℕ :=
  (technical_terms.map fun term =>
    countTerm (term.data.map Char.toLower) (text.data.map Char.toLower)).sum

/-- `avg_sentence_length = len(words) / len(sentences)`. -/
def avg_sentence_length (text : String) : ℚ :=
  ((pySplitWs text).length : ℚ) / ((pySentences text).length : ℚ)

/-- `avg_syllables = sum(syllables) / len(words)`. -/
def avg_syllables (text : String) : ℚ :=
  (((pySplitWs text).map count_syllables).sum : ℚ) / ((pySplitWs text).length : ℚ)

/-- `min(100, max(0, 206.835 - 1.015·asl - 84.6·asyl)) / 100`. -/
def readability_val (text : String) : ℚ :=
  min 100 (max 0 (206835/1000 - (1015/1000) * avg_sentence_length text
    - (846/10) * avg_syllables text)) / 100

/-- `len(set(normalized words)) / len(words)`. -/
def word_diversity_val (text : String) : ℚ :=
  ((((pySplitWs text).map normalizeWord).dedup).length : ℚ) / ((pySplitWs text).length : ℚ)

/-- `[len(s.split()) for s in sentences]` as rationals. -/
def sentence_lengths (text : String) : List ℚ :=
  (pySentences text).map fun s => (((pySplitWs s).length : ℕ) : ℚ)

/-- Population variance of the sentence lengths. -/
def length_variance (text : String) : ℚ :=
  ((sentence_lengths text).map fun l =>
    (l - (sentence_lengths text).sum / ((sentence_lengths text).length : ℚ)) ^ 2).sum
    / ((sentence_lengths text).length : ℚ)

/-- `min(1.0, length_variance / 100)`. -/
def sentence_complexity_val (text : String) : ℚ :=
  min 1 (length_variance text / 100)

/-- `technical_count / len(words)`. -/
def technical_term_density_val (text : String) : ℚ :=
  (technicalCount text : ℚ) / ((pySplitWs text).length : ℚ)

/-- `0.3·readability + 0.25·diversity + 0.2·complexity + 0.25·min(1, 10·density)`. -/
def overall_quality_val (text : String) : ℚ :=
  readability_val text * (3/10) + word_diversity_val text * (1/4)
    + sentence_complexity_val text * (1/5)
    + min 1 (technical_term_density_val text * 10) * (1/4)

/-- `AdvancedTextProcessor.assess_text_quality`: all-zero metrics for empty
or sub-100-character text, or when no words/sentences survive splitting;
otherwise the five metric values. -/
def assess_text_quality (text : String) : TextQualityMetrics :=
  if text = "" ∨ (pyStrip text).length < 100 then ⟨0, 0, 0, 0, 0⟩
  else if pySplitWs text = [] ∨ pySentences text = [] then ⟨0, 0, 0, 0, 0⟩
  else
    ⟨readability_val text, word_diversity_val text, sentence_complexity_val text,
      technical_term_density_val text, overall_quality_val text⟩

theorem readability_val_bounds (t : String) :
    0 ≤ readability_val t ∧ readability_val t ≤ 1 := by
  unfold readability_val
  constructor
  · exact div_nonneg (le_min (by norm_num) (le_max_left _ _)) (by norm_num)
  · rw [div_le_one (by norm_num)]
    exact min_le_left _ _

theorem word_diversity_val_bounds (t : String) :
    0 ≤ word_diversity_val t ∧ word_diversity_val t ≤ 1 := by
  unfold word_diversity_val
  constructor
  · exact div_nonneg (Nat.cast_nonneg _) (Nat.cast_nonneg _)
  · rcases Nat.eq_zero_or_pos (pySplitWs t).length with h | h
    · rw [h]
      simp
    · rw [div_le_one (by exact_mod_cast h)]
      have h1 : (((pySplitWs t).map normalizeWord).dedup).length
          ≤ ((pySplitWs t).map normalizeWord).length :=
        (List.dedup_sublist _).length_le
      rw [List.length_map] at h1
      exact_mod_cast h1

theorem length_variance_nonneg (t : String) : 0 ≤ length_variance t := by
  unfold length_variance
  apply div_nonneg _ (Nat.cast_nonneg _)
  apply List.sum_nonneg
  intro x hx
  rcases List.mem_map.mp hx with ⟨l, -, rfl⟩
  positivity

theorem sentence_complexity_val_bounds (t : String) :
    0 ≤ sentence_complexity_val t ∧ sentence_complexity_val t ≤ 1 := by
  unfold sentence_complexity_val
  exact ⟨le_min (by norm_num) (div_nonneg (length_variance_nonneg t) (by norm_num)),
    min_le_left _ _⟩

theorem technical_term_density_val_nonneg (t : String) :
    0 ≤ technical_term_density_val t := by
  unfold technical_term_density_val
  exact div_nonneg (Nat.cast_nonneg _) (Nat.cast_nonneg _)

theorem overall_quality_val_bounds (t : String) :
    0 ≤ overall_quality_val t ∧ overall_quality_val t ≤ 1 := by
  have hr := readability_val_bounds t
  have hd := word_diversity_val_bounds t
  have hc := sentence_complexity_val_bounds t
  have hm0 : 0 ≤ min 1 (technical_term_density_val t * 10) :=
    le_min (by norm_num) (mul_nonneg (technical_term_density_val_nonneg t) (by norm_num))
  have hm1 : min 1 (technical_term_density_val t * 10) ≤ 1 := min_le_left _ _
  unfold overall_quality_val
  constructor
  · linarith [hr.1, hd.1, hc.1, hm0]
  · linarith [hr.2, hd.2, hc.2, hm1]

/-- C2 amended: for every input text, `readabilityScore`, `wordDiversity`,
`sentenceComplexity` and `overallQuality` lie in `[0, 1]`, and
`technicalTermDensity` is nonnegative — but the density is not bounded by 1
(terms listed in several domains are counted once per listing, and multi-word
terms also overlap their component words), so only the clamped
`min(1, 10·density)` inside `overallQuality` is. -/
theorem assess_text_quality_bounds (text : String) :
    (0 ≤ (assess_text_quality text).readability_score
      ∧ (assess_text_quality text).readability_score ≤ 1)
    ∧ (0 ≤ (assess_text_quality text).word_diversity
      ∧ (assess_text_quality text).word_diversity ≤ 1)
    ∧ (0 ≤ (assess_text_quality text).sentence_complexity
      ∧ (assess_text_quality text).sentence_complexity ≤ 1)
    ∧ 0 ≤ (assess_text_quality text).technical_term_density
    ∧ (0 ≤ (assess_text_quality text).overall_quality
      ∧ (assess_text_quality text).overall_quality ≤ 1) := by
  unfold assess_text_quality
  split_ifs with h1 h2
  · norm_num
  · norm_num
  · exact ⟨readability_val_bounds text, word_diversity_val_bounds text,
      sentence_complexity_val_bounds text, technical_term_density_val_nonneg text,
      overall_quality_val_bounds text⟩

/-- C2 counterexample: on 11 repetitions of `algorithm` (109 > 100
characters) the word `algorithm` matches in both the machine-learning and
computer-science term lists, giving 22 matches over 11 words —
`technicalTermDensity = 2 > 1`, violating the claimed `[0, 1]` bound. -/
theorem assess_density_exceeds_one :
    (assess_text_quality "algorithm algorithm algorithm algorithm algorithm algorithm algorithm algorithm algorithm algorithm algorithm").technical_term_density
      = 2
    ∧ ¬ ((assess_text_quality "algorithm algorithm algorithm algorithm algorithm algorithm algorithm algorithm algorithm algorithm algorithm").technical_term_density
      ≤ 1) := by
  have htc : technicalCount "algorithm algorithm algorithm algorithm algorithm algorithm algorithm algorithm algorithm algorithm algorithm"
      = 22 := by decide
  have hwl : (pySplitWs "algorithm algorithm algorithm algorithm algorithm algorithm algorithm algorithm algorithm algorithm algorithm").length
      = 11 := by decide
  have hval : (assess_text_quality "algorithm algorithm algorithm algorithm algorithm algorithm algorithm algorithm algorithm algorithm algorithm").technical_term_density
      = technical_term_density_val "algorithm algorithm algorithm algorithm algorithm algorithm algorithm algorithm algorithm algorithm algorithm" := by
    unfold assess_text_quality
    rw [if_neg (by decide), if_neg (by decide)]
  have h2 : technical_term_density_val "algorithm algorithm algorithm algorithm algorithm algorithm algorithm algorithm algorithm algorithm algorithm"
      = 2 := by
    unfold technical_term_density_val
    rw [htc, hwl]
    norm_num
  refine ⟨hval.trans h2, ?_⟩
  rw [hval, h2]
  norm_num

end AdvancedTextProcessor

end RA
